import Mathlib

/-!
Verification of the cart store and purchase-submission flow of the
Bob's Corn storefront frontend.

The embedding follows the TypeScript sources:
* the cart store (`makeKey`, `addItem`, `removeItem`, `setItemQty`, `clear`,
  the `Record<string, CartItem>` of items) from `src/app/store/cart.ts`
  (the clamping version, the one the checkout sheet imports);
* the auth store (`login`, `logout`) from `src/app/store/auth.ts`;
* the HTTP client `request` from `src/app/lib/api.ts` (status branching,
  401 logout side effect, error-message construction);
* the purchase payload of `usePurchaseMutation` from `src/app/lib/queries.ts`;
* the `handleCheckout` handler of `src/app/components/shared/CartSheet.tsx`.

JavaScript numbers are modelled as exact rationals (`ℚ`) for prices and as
integers (`ℤ`) for quantities; `Number((x).toFixed(2))` is modelled as exact
rounding to two decimals with ties toward positive infinity, which is the
rounding rule ECMAScript specifies for `toFixed`.  JavaScript string
truthiness (`""` is falsy) is modelled explicitly where the code relies on it.
-/

namespace BobsCorn

/-- `CartLine` input type from `src/app/store/cart.ts`: the data supplied to
`addItem`.  `image` and `optionsKey` are optional fields. -/
structure CartLine where
  id : String
  title : String
  price : ℚ
  image : Option String
  optionsKey : Option String
  deriving DecidableEq, Repr

/-- `CartItem` from `src/app/store/cart.ts`: a stored cart line, extending
`CartLine` with the record key, the clamped quantity and the rounded
subtotal. -/
structure CartItem where
  id : String
  title : String
  price : ℚ
  image : Option String
  optionsKey : Option String
  key : String
  qty : ℤ
  subtotal : ℚ
  deriving DecidableEq, Repr

/-- `makeKey` from `src/app/store/cart.ts`:
`` `${line.id}__${line.optionsKey ?? ""}` ``. -/
def makeKey (line : CartLine) : String :=
  line.id ++ "__" ++ line.optionsKey.getD ""

/-- `Number((x).toFixed(2))`: round to two decimal places, ties toward
positive infinity (the ECMAScript `toFixed` rule: among the candidate
integers `n` with `n / 100` closest to `x`, the larger `n` is chosen). -/
def round2 (x : ℚ) : ℚ :=
  (⌊x * 100 + 1 / 2⌋ : ℚ) / 100

/-- `Math.max(1, Math.min(99, q))` from `addItem` / `setItemQty`. -/
def jsClamp (q : ℤ) : ℤ :=
  max 1 (min 99 q)

/-- The `items` record of the cart store.  A JavaScript
`Record<string, CartItem>` keyed by `item.key`; modelled as a list of items
in insertion order, with lookup by key. -/
abbrev CartItems := List CartItem

/-- `state.items[key]`: lookup by record key. -/
def lookupItem : CartItems → String → Option CartItem
  | [], _ => none
  | it :: rest, k => if it.key = k then some it else lookupItem rest k

/-- `{ ...state.items, [item.key]: item }`: replace the entry with the same
key in place, or append a fresh key at the end (JavaScript records keep the
position of an overwritten string key and append new keys). -/
def insertItem : CartItems → CartItem → CartItems
  | [], it => [it]
  | x :: xs, it => if x.key = it.key then it :: xs else x :: insertItem xs it

/-- `removeItem` from `src/app/store/cart.ts`: delete the entry with the
given key (`const { [key]: _, ...rest } = s.items`). -/
def removeItem : CartItems → String → CartItems
  | [], _ => []
  | x :: xs, k => if x.key = k then removeItem xs k else x :: removeItem xs k

/-- `addItem` from `src/app/store/cart.ts`: merge by key, clamp the summed
quantity into `[1, 99]`, rebuild the item from the supplied line
(`{ ...line, key, qty: newQty, subtotal: Number((line.price * newQty).toFixed(2)) }`). -/
def addItem (s : CartItems) (line : CartLine) (q : ℤ) : CartItems :=
  let key := makeKey line
  let prevQty : ℤ := match lookupItem s key with
    | some prev => prev.qty
    | none => 0
  let newQty := jsClamp (prevQty + q)
  insertItem s
    { id := line.id
      title := line.title
      price := line.price
      image := line.image
      optionsKey := line.optionsKey
      key := key
      qty := newQty
      subtotal := round2 (line.price * (newQty : ℚ)) }

/-- `setItemQty` from `src/app/store/cart.ts`: no-op on a missing key,
otherwise clamp the quantity into `[1, 99]` and recompute the subtotal from
the stored unit price. -/
def setItemQty (s : CartItems) (k : String) (q : ℤ) : CartItems :=
  match lookupItem s k with
  | none => s
  | some item =>
    let clamped := jsClamp q
    insertItem s
      { item with qty := clamped, subtotal := round2 (item.price * (clamped : ℚ)) }

/-- `clear` from `src/app/store/cart.ts`: `set({ items: {} })`. -/
def clearCart : CartItems := []

/-- Cart states reachable from the initial empty store by the four store
actions. -/
inductive Reachable : CartItems → Prop where
  | init : Reachable []
  | add (s : CartItems) (line : CartLine) (q : ℤ) :
      Reachable s → Reachable (addItem s line q)
  | set (s : CartItems) (k : String) (q : ℤ) :
      Reachable s → Reachable (setItemQty s k q)
  | remove (s : CartItems) (k : String) :
      Reachable s → Reachable (removeItem s k)
  | clearStep (s : CartItems) : Reachable s → Reachable clearCart

theorem mem_insertItem {x it : CartItem} {s : CartItems}
    (h : x ∈ insertItem s it) : x = it ∨ x ∈ s := by
  induction s with
  | nil =>
    simp [insertItem] at h
    exact Or.inl h
  | cons y ys ih =>
    by_cases hk : y.key = it.key
    · simp [insertItem, hk] at h
      rcases h with h | h
      · exact Or.inl h
      · exact Or.inr (List.mem_cons_of_mem _ h)
    · simp [insertItem, hk] at h
      rcases h with h | h
      · exact Or.inr (by simp [h])
      · rcases ih h with h' | h'
        · exact Or.inl h'
        · exact Or.inr (List.mem_cons_of_mem _ h')

theorem mem_removeItem {x : CartItem} {s : CartItems} {k : String}
    (h : x ∈ removeItem s k) : x ∈ s := by
  induction s with
  | nil => simp [removeItem] at h
  | cons y ys ih =>
    by_cases hk : y.key = k
    · simp [removeItem, hk] at h
      exact List.mem_cons_of_mem _ (ih h)
    · simp [removeItem, hk] at h
      rcases h with h | h
      · simp [h]
      · exact List.mem_cons_of_mem _ (ih h)

theorem jsClamp_lower (q : ℤ) : 1 ≤ jsClamp q := by
  simp [jsClamp]

theorem jsClamp_upper (q : ℤ) : jsClamp q ≤ 99 := by
  simp [jsClamp]

/-- Quantity bounds hold for every item of every reachable cart state. -/
theorem qty_invariant {s : CartItems} (h : Reachable s) :
    ∀ it ∈ s, 1 ≤ it.qty ∧ it.qty ≤ 99 := by
  induction h with
  | init => intro it hit; simp at hit
  | add s line q _ ih =>
    intro it hit
    rcases mem_insertItem hit with rfl | hmem
    · exact ⟨jsClamp_lower _, jsClamp_upper _⟩
    · exact ih it hmem
  | set s k q _ ih =>
    intro it hit
    unfold setItemQty at hit
    cases hfind : lookupItem s k with
    | none => rw [hfind] at hit; exact ih it hit
    | some item =>
      rw [hfind] at hit
      rcases mem_insertItem hit with rfl | hmem
      · exact ⟨jsClamp_lower _, jsClamp_upper _⟩
      · exact ih it hmem
  | remove s k _ ih =>
    intro it hit
    exact ih it (mem_removeItem hit)
  | clearStep s _ ih =>
    intro it hit; simp [clearCart] at hit

/-- Subtotal coherence holds for every item of every reachable cart state:
the stored subtotal is the stored unit price times the stored quantity,
rounded to two decimals. -/
theorem subtotal_invariant {s : CartItems} (h : Reachable s) :
    ∀ it ∈ s, it.subtotal = round2 (it.price * (it.qty : ℚ)) := by
  induction h with
  | init => intro it hit; simp at hit
  | add s line q _ ih =>
    intro it hit
    rcases mem_insertItem hit with rfl | hmem
    · rfl
    · exact ih it hmem
  | set s k q _ ih =>
    intro it hit
    unfold setItemQty at hit
    cases hfind : lookupItem s k with
    | none => rw [hfind] at hit; exact ih it hit
    | some item =>
      rw [hfind] at hit
      rcases mem_insertItem hit with rfl | hmem
      · rfl
      · exact ih it hmem
  | remove s k _ ih =>
    intro it hit
    exact ih it (mem_removeItem hit)
  | clearStep s _ ih =>
    intro it hit; simp [clearCart] at hit

/-- `User` from `src/app/store/auth.ts`. -/
structure User where
  id : Option String
  name : String
  email : String
  avatarUrl : Option String
  deriving DecidableEq, Repr

/-- The auth store state from `src/app/store/auth.ts`: current user and
bearer token (both `null` when logged out). -/
structure AuthState where
  user : Option User
  token : Option String
  deriving DecidableEq, Repr

/-- `login` from `src/app/store/auth.ts`: `set({ user, token })`
(localStorage persistence is outside the model). -/
def login (_ : AuthState) (u : User) (tok : Option String) : AuthState :=
  { user := some u, token := tok }

/-- `logout` from `src/app/store/auth.ts`: `set({ user: null, token: null })`
(localStorage persistence is outside the model). -/
def logout (_ : AuthState) : AuthState :=
  { user := none, token := none }

/-- Order payload shape used by the backend responses consumed in
`src/app/lib/queries.ts` (`Order`): only the fields the claims touch. -/
structure OrderInfo where
  id : String
  total : ℚ
  status : String
  deriving DecidableEq, Repr

/-- The parsed JSON body of a backend response, restricted to the fields
the client reads: `error`, `message`, `retryAfter`, `order`. -/
structure RespBody where
  error : Option String
  message : Option String
  retryAfter : Option ℤ
  order : Option OrderInfo
  deriving DecidableEq, Repr

/-- An HTTP response as seen by `request` in `src/app/lib/api.ts`: status
code, status text, and the parsed body (`none` when the body text is
empty). -/
structure HttpResponse where
  status : ℕ
  statusText : String
  body : Option RespBody
  deriving DecidableEq, Repr

/-- JavaScript string truthiness: `""`, like `null`/`undefined`, is falsy. -/
def jsTruthy : Option String → Option String
  | some s => if s = "" then none else some s
  | none => none

/-- `res.ok` of the Fetch API: status in the range 200–299. -/
def httpOk (status : ℕ) : Bool :=
  decide (200 ≤ status ∧ status ≤ 299)

/-- The error message built in `src/app/lib/api.ts`:
`data?.error || data?.message || res.statusText` (JavaScript `||`, so empty
strings fall through). -/
def errMessage (body : Option RespBody) (statusText : String) : String :=
  match jsTruthy (body.bind fun b => b.error) with
  | some m => m
  | none =>
    match jsTruthy (body.bind fun b => b.message) with
    | some m => m
    | none => statusText

/-- Result of `request` in `src/app/lib/api.ts`: either the parsed body, or
a thrown error carrying `err.status`, `err.message` and `err.data`. -/
inductive RequestResult where
  | ok (data : Option RespBody)
  | err (status : ℕ) (message : String) (data : Option RespBody)
  deriving DecidableEq, Repr

/-- `request` from `src/app/lib/api.ts`, given the response the network
returns: on `res.ok` return the parsed body; otherwise log out on status
401 (side effect on the auth store) and throw an error with
`data?.error || data?.message || res.statusText` as message. -/
def request (auth : AuthState) (resp : HttpResponse) : AuthState × RequestResult :=
  if httpOk resp.status then
    (auth, .ok resp.body)
  else
    let auth' := if resp.status = 401 then logout auth else auth
    (auth', .err resp.status (errMessage resp.body resp.statusText) resp.body)

/-- The spec's `PurchaseOutcome` taxonomy
(`Success | Unauthenticated | RateLimited | Failure`), plus `skipped` for
the empty-cart early return which produces no outcome at all. -/
inductive PurchaseOutcome where
  | skipped
  | unauthenticated
  | success (order : Option OrderInfo)
  | rateLimited (retryAfterSeconds : Option ℤ)
  | failure (message : String)
  deriving DecidableEq, Repr

/-- Classification of a request result, read off the status branching in
the code: `request` in `src/app/lib/api.ts` singles out 401 (logout), the
`catch` in `CartSheet.tsx` singles out `err?.status === 429` (rate-limit
toast, with `err.data.retryAfter` available on the error object), every
other thrown error is the generic failure branch, and an `ok` result
carries the parsed `{ order }` body. -/
def classify : RequestResult → PurchaseOutcome
  | .ok data => .success (data.bind fun b => b.order)
  | .err status msg data =>
    if status = 401 then .unauthenticated
    else if status = 429 then .rateLimited (data.bind fun b => b.retryAfter)
    else .failure msg

/-- One line of the purchase payload built in `handleCheckout`:
`{ productId: it.id, quantity: it.qty }` — these are the only fields. -/
structure PurchaseItem where
  productId : String
  quantity : ℤ
  deriving DecidableEq, Repr

/-- `items.map((it) => ({ productId: it.id, quantity: it.qty }))` from
`handleCheckout` in `CartSheet.tsx`. -/
def checkoutPayload (items : CartItems) : List PurchaseItem :=
  items.map fun it => { productId := it.id, quantity := it.qty }

/-- A toast notification (message and severity). -/
structure Toast where
  message : String
  severity : String
  deriving DecidableEq, Repr

/-- The rate-limit toast text from `CartSheet.tsx`. -/
def rateLimitMsg : String :=
  "Please wait! Bob\x27s policy: Maximum 1 corn purchase per minute. Try again shortly."

/-- The success toast text from `CartSheet.tsx`. -/
def successToastMsg : String := "Order placed successfully! 🌽"

/-- The generic failure fallback from `CartSheet.tsx`:
`err?.message || "Failed to place order."`. -/
def genericFailureMsg : String := "Failed to place order."

/-- UTF-8 encoding of one Unicode scalar value, as a list of byte values. -/
def utf8Bytes (c : Char) : List ℕ :=
  let n := c.toNat
  if n < 0x80 then [n]
  else if n < 0x800 then [0xC0 + n / 0x40, 0x80 + n % 0x40]
  else if n < 0x10000 then
    [0xE0 + n / 0x1000, 0x80 + n / 0x40 % 0x40, 0x80 + n % 0x40]
  else
    [0xF0 + n / 0x40000, 0x80 + n / 0x1000 % 0x40, 0x80 + n / 0x40 % 0x40,
      0x80 + n % 0x40]

/-- Uppercase hexadecimal digit for a value below 16. -/
def hexDigit (n : ℕ) : Char :=
  if n < 10 then Char.ofNat (48 + n) else Char.ofNat (55 + n)

/-- Characters `encodeURIComponent` leaves unescaped: ASCII alphanumerics
and `- _ . ! ~ * ' ( )`. -/
def isUnreservedURIChar (c : Char) : Bool :=
  c.isAlpha || c.isDigit || c = Char.ofNat 45 || c = Char.ofNat 95 ||
    c = Char.ofNat 46 || c = Char.ofNat 33 || c = Char.ofNat 126 ||
    c = Char.ofNat 42 || c = Char.ofNat 39 || c = Char.ofNat 40 ||
    c = Char.ofNat 41

/-- ECMAScript `encodeURIComponent`: keep unreserved characters, percent-
encode the UTF-8 bytes of every other character with uppercase hex. -/
def encodeURIComponent (s : String) : String :=
  s.data.foldl
    (fun acc c =>
      if isUnreservedURIChar c then acc.push c
      else
        (utf8Bytes c).foldl
          (fun a b => ((a.push (Char.ofNat 37)).push (hexDigit (b / 16))).push
            (hexDigit (b % 16)))
          acc)
    ""

/-- The observable effects of one run of `handleCheckout` in
`CartSheet.tsx`: network requests issued (each with its payload), the cart
and auth states afterwards, how many times `clear()` ran, `router.push`
targets, toasts shown, and the outcome classification of the branch
taken. -/
structure CheckoutResult where
  networkCalls : List (List PurchaseItem)
  itemsAfter : CartItems
  authAfter : AuthState
  clearCount : ℕ
  navigations : List String
  toasts : List Toast
  outcome : PurchaseOutcome
  deriving DecidableEq, Repr

/-- `handleCheckout` from `src/app/components/shared/CartSheet.tsx`, run
against the response `resp` the backend would return to the single
`purchaseMutation.mutateAsync` call:
1. `if (!items.length) return;`
2. `if (!token) { router.push(`/login?next=` + encodeURIComponent(pathname || "/")); return; }`
3. `await mutateAsync({ items: items.map(it => ({ productId: it.id, quantity: it.qty })) })`
   — the mutation posts once, with no retry (`retry: 0` in the query
   client), so exactly one network call carries the payload;
4. on resolution: success toast, `clear()`, `router.push("/orders")`;
5. on a thrown error: rate-limit toast when `err?.status === 429`, else
   `toast(err?.message || "Failed to place order.")`; the cart is not
   touched. -/
def handleCheckout (items : CartItems) (auth : AuthState) (pathname : String)
    (resp : HttpResponse) : CheckoutResult :=
  if items.length = 0 then
    { networkCalls := [], itemsAfter := items, authAfter := auth,
      clearCount := 0, navigations := [], toasts := [],
      outcome := .skipped }
  else
    match jsTruthy auth.token with
    | none =>
      { networkCalls := [], itemsAfter := items, authAfter := auth,
        clearCount := 0,
        navigations :=
          ["/login?next=" ++
            encodeURIComponent (if pathname = "" then "/" else pathname)],
        toasts := [], outcome := .unauthenticated }
    | some _ =>
      let payload := checkoutPayload items
      let res := request auth resp
      match res.2 with
      | .ok _ =>
        { networkCalls := [payload], itemsAfter := clearCart,
          authAfter := res.1, clearCount := 1, navigations := ["/orders"],
          toasts := [{ message := successToastMsg, severity := "success" }],
          outcome := classify res.2 }
      | .err status msg _ =>
        if status = 429 then
          { networkCalls := [payload], itemsAfter := items,
            authAfter := res.1, clearCount := 0, navigations := [],
            toasts := [{ message := rateLimitMsg, severity := "warning" }],
            outcome := classify res.2 }
        else
          { networkCalls := [payload], itemsAfter := items,
            authAfter := res.1, clearCount := 0, navigations := [],
            toasts :=
              [{ message := if msg = "" then genericFailureMsg else msg,
                 severity := "error" }],
            outcome := classify res.2 }

theorem lookupItem_key {s : CartItems} {k : String} {it : CartItem}
    (h : lookupItem s k = some it) : it.key = k := by
  induction s with
  | nil => simp [lookupItem] at h
  | cons x xs ih =>
    by_cases hx : x.key = k
    · simp [lookupItem, hx] at h
      rw [← h]; exact hx
    · simp [lookupItem, hx] at h
      exact ih h

theorem lookupItem_insertItem_self (s : CartItems) (it : CartItem) :
    lookupItem (insertItem s it) it.key = some it := by
  induction s with
  | nil => simp [insertItem, lookupItem]
  | cons x xs ih =>
    by_cases hx : x.key = it.key
    · simp [insertItem, hx, lookupItem]
    · simp [insertItem, hx, lookupItem, ih]

theorem lookupItem_insertItem_ne {k : String} (s : CartItems) (it : CartItem)
    (h : k ≠ it.key) : lookupItem (insertItem s it) k = lookupItem s k := by
  have hik : ¬ it.key = k := fun hc => h hc.symm
  induction s with
  | nil => simp [insertItem, lookupItem, hik]
  | cons x xs ih =>
    by_cases hx : x.key = it.key
    · have hxk : ¬ x.key = k := by rw [hx]; exact hik
      simp [insertItem, hx, lookupItem, hik, hxk]
    · simp [insertItem, hx, lookupItem, ih]

theorem length_insertItem_of_lookup {s : CartItems} {it x : CartItem}
    (h : lookupItem s it.key = some x) :
    (insertItem s it).length = s.length := by
  induction s with
  | nil => simp [lookupItem] at h
  | cons y ys ih =>
    by_cases hy : y.key = it.key
    · simp [insertItem, hy]
    · simp [lookupItem, hy] at h
      simp [insertItem, hy, ih h]

theorem insertItem_insertItem_self (s : CartItems) (it : CartItem) :
    insertItem (insertItem s it) it = insertItem s it := by
  induction s with
  | nil => simp [insertItem]
  | cons x xs ih =>
    by_cases hx : x.key = it.key
    · simp [insertItem, hx]
    · simp [insertItem, hx, ih]

theorem jsClamp_of_lt_one {q : ℤ} (h : q < 1) : jsClamp q = 1 := by
  simp [jsClamp]
  omega

/-- C1: on every reachable cart state, every stored line's quantity lies in
`[1, 99]` — so adding any quantity (for example 150 units at once or over
repeated `addItem` increments) never stores a quantity above 99 — and
`setItemQty` with a quantity below 1 keeps the line in the cart with
quantity exactly 1 (the floor), rather than going below it or removing the
line. -/
theorem claim_C1_qty_clamped :
    (∀ s : CartItems, Reachable s → ∀ it ∈ s, 1 ≤ it.qty ∧ it.qty ≤ 99) ∧
    (∀ (s : CartItems) (k : String) (q : ℤ) (it : CartItem),
      lookupItem s k = some it → q < 1 →
      lookupItem (setItemQty s k q) k =
        some { it with qty := 1,
                       subtotal := round2 (it.price * ((1 : ℤ) : ℚ)) }) := by
  constructor
  · intro s hs
    exact qty_invariant hs
  · intro s k q it hfind hq
    have hk : it.key = k := lookupItem_key hfind
    have hins := lookupItem_insertItem_self s
      { it with qty := jsClamp q,
                subtotal := round2 (it.price * ((jsClamp q : ℤ) : ℚ)) }
    simp only [setItemQty, hfind]
    rw [jsClamp_of_lt_one hq] at hins ⊢
    simpa [hk] using hins

/-- Cart line used by the concrete witnesses. -/
def sampleLine : CartLine :=
  { id := "corn-1", title := "Yellow Corn", price := 599 / 100,
    image := none, optionsKey := none }

/-- The item `addItem` stores for `sampleLine` at clamped quantity 99. -/
def sampleItem99 : CartItem :=
  { id := "corn-1", title := "Yellow Corn", price := 599 / 100,
    image := none, optionsKey := none, key := "corn-1__", qty := 99,
    subtotal := round2 (599 / 100 * ((99 : ℤ) : ℚ)) }

/-- A stored cart item at quantity 5. -/
def sampleItem5 : CartItem :=
  { id := "corn-1", title := "Yellow Corn", price := 599 / 100,
    image := none, optionsKey := none, key := "corn-1__", qty := 5,
    subtotal := round2 (599 / 100 * ((5 : ℤ) : ℚ)) }

theorem claim_C1_qty_clamped_witness :
    (1 ≤ sampleItem99.qty ∧ sampleItem99.qty ≤ 99) ∧
    lookupItem (setItemQty [sampleItem5] "corn-1__" 0) "corn-1__" =
      some { sampleItem5 with
               qty := 1,
               subtotal := round2 (sampleItem5.price * ((1 : ℤ) : ℚ)) } := by
  constructor
  · exact claim_C1_qty_clamped.1 (addItem [] sampleLine 150)
      (Reachable.add [] sampleLine 150 Reachable.init) sampleItem99
      (List.Mem.head _)
  · exact claim_C1_qty_clamped.2 [sampleItem5] "corn-1__" 0 sampleItem5
      (by rfl) (by decide)

/-- The item `setItemQty` stores in place of an existing item: clamped
quantity, subtotal recomputed from the stored unit price. -/
def bumpQty (item : CartItem) (q : ℤ) : CartItem :=
  { item with qty := jsClamp q,
              subtotal := round2 (item.price * ((jsClamp q : ℤ) : ℚ)) }

theorem setItemQty_eq_of_lookup {s : CartItems} {k : String} {q : ℤ}
    {item : CartItem} (hfind : lookupItem s k = some item) :
    setItemQty s k q = insertItem s (bumpQty item q) := by
  simp [setItemQty, bumpQty, hfind]

theorem setItemQty_idem (s : CartItems) (k : String) (q : ℤ) :
    setItemQty (setItemQty s k q) k q = setItemQty s k q := by
  cases hfind : lookupItem s k with
  | none => simp [setItemQty, hfind]
  | some item =>
    have hk : item.key = k := lookupItem_key hfind
    have h1 := setItemQty_eq_of_lookup (q := q) hfind
    have hkey : (bumpQty item q).key = k := hk
    have hfind2 : lookupItem (setItemQty s k q) k = some (bumpQty item q) := by
      rw [h1, ← hkey]
      exact lookupItem_insertItem_self s (bumpQty item q)
    have h2 := setItemQty_eq_of_lookup (q := q) hfind2
    rw [h2, h1]
    have hbb : bumpQty (bumpQty item q) q = bumpQty item q := rfl
    rw [hbb, insertItem_insertItem_self]

/-- C7: on every reachable cart state, every stored line's subtotal equals
its unit price times its quantity rounded to exactly two decimal places
with the half-up rule (so unit price 19.995 at quantity 2 yields exactly
39.99, within the claim's "39.99 or 40.00", and 19.995 at quantity 1
rounds the half case up to 20.00 rather than truncating to 19.99); and
recomputing a line's quantity and subtotal with the same input reproduces
the same state. -/
theorem claim_C7_subtotal_round_half_up :
    (∀ s : CartItems, Reachable s → ∀ it ∈ s,
      it.subtotal = round2 (it.price * (it.qty : ℚ))) ∧
    round2 (19995 / 1000 * (2 : ℚ)) = 3999 / 100 ∧
    round2 (19995 / 1000 * (1 : ℚ)) = 20 ∧
    (∀ (s : CartItems) (k : String) (q : ℤ),
      setItemQty (setItemQty s k q) k q = setItemQty s k q) := by
  refine ⟨?_, ?_, ?_, setItemQty_idem⟩
  · intro s hs
    exact subtotal_invariant hs
  · norm_num [round2]
  · norm_num [round2]

/-- The item `addItem` stores for `sampleLine` at quantity 2. -/
def sampleItem2 : CartItem :=
  { id := "corn-1", title := "Yellow Corn", price := 599 / 100,
    image := none, optionsKey := none, key := "corn-1__", qty := 2,
    subtotal := round2 (599 / 100 * ((2 : ℤ) : ℚ)) }

theorem claim_C7_subtotal_round_half_up_witness :
    sampleItem2.subtotal = round2 (sampleItem2.price * (sampleItem2.qty : ℚ)) :=
  claim_C7_subtotal_round_half_up.1 (addItem [] sampleLine 2)
    (Reachable.add [] sampleLine 2 Reachable.init) sampleItem2
    (List.Mem.head _)

/-- C10: `addItem` with a line whose `(productId, optionsKey)` key is
already stored never creates a second line: the cart size is unchanged,
the stored entry under that key now carries the newly supplied line's
`title`, `price` and `image` (last-write-wins), its quantity is the
clamped sum of the old and added quantities, its subtotal is recomputed
from the new price for the whole merged quantity, and every other key is
untouched. -/
theorem claim_C10_addItem_merges_last_write_wins
    (s : CartItems) (prev : CartItem) (line : CartLine) (q : ℤ)
    (h : lookupItem s (makeKey line) = some prev) :
    (addItem s line q).length = s.length ∧
    lookupItem (addItem s line q) (makeKey line) =
      some { id := line.id, title := line.title, price := line.price,
             image := line.image, optionsKey := line.optionsKey,
             key := makeKey line, qty := jsClamp (prev.qty + q),
             subtotal :=
               round2 (line.price * ((jsClamp (prev.qty + q) : ℤ) : ℚ)) } ∧
    (∀ k, k ≠ makeKey line →
      lookupItem (addItem s line q) k = lookupItem s k) := by
  have hadd : addItem s line q =
      insertItem s
        { id := line.id, title := line.title, price := line.price,
          image := line.image, optionsKey := line.optionsKey,
          key := makeKey line, qty := jsClamp (prev.qty + q),
          subtotal :=
            round2 (line.price * ((jsClamp (prev.qty + q) : ℤ) : ℚ)) } := by
    simp [addItem, h]
  refine ⟨?_, ?_, ?_⟩
  · rw [hadd]
    exact length_insertItem_of_lookup h
  · rw [hadd]
    exact lookupItem_insertItem_self s _
  · intro k hk
    rw [hadd]
    exact lookupItem_insertItem_ne s _ hk

/-- A line with the same product id and options key as `sampleItem5`, but a
different title, price and image. -/
def sampleLineB : CartLine :=
  { id := "corn-1", title := "Sweet Corn Deluxe", price := 7,
    image := some "/sweet.jpg", optionsKey := none }

theorem claim_C10_addItem_merges_last_write_wins_witness :
    (addItem [sampleItem5] sampleLineB 3).length = 1 ∧
    lookupItem (addItem [sampleItem5] sampleLineB 3) (makeKey sampleLineB) =
      some { id := sampleLineB.id, title := sampleLineB.title,
             price := sampleLineB.price, image := sampleLineB.image,
             optionsKey := sampleLineB.optionsKey, key := makeKey sampleLineB,
             qty := jsClamp (sampleItem5.qty + 3),
             subtotal :=
               round2 (sampleLineB.price *
                 ((jsClamp (sampleItem5.qty + 3) : ℤ) : ℚ)) } ∧
    lookupItem (addItem [sampleItem5] sampleLineB 3) "other__" =
      lookupItem [sampleItem5] "other__" := by
  obtain ⟨h1, h2, h3⟩ :=
    claim_C10_addItem_merges_last_write_wins [sampleItem5] sampleItem5
      sampleLineB 3 (by rfl)
  exact ⟨h1, h2, h3 "other__" (by decide)⟩

/-- C2: when the purchase request's response has status 429, the outcome is
`rateLimited` — never a generic `failure` — carrying the server's
`retryAfter` hint from the body when one is present; the rate-limit wait
toast is surfaced; exactly one network request was issued (no automatic
retry); and the cart after the attempt equals the cart before it. -/
theorem claim_C2_429_rate_limited (items : CartItems) (auth : AuthState)
    (pathname : String) (resp : HttpResponse)
    (h1 : items.length ≠ 0) (h2 : jsTruthy auth.token ≠ none)
    (h3 : resp.status = 429) :
    (handleCheckout items auth pathname resp).outcome =
      PurchaseOutcome.rateLimited (resp.body.bind fun b => b.retryAfter) ∧
    (∀ m, (handleCheckout items auth pathname resp).outcome ≠
      PurchaseOutcome.failure m) ∧
    (handleCheckout items auth pathname resp).toasts =
      [{ message := rateLimitMsg, severity := "warning" }] ∧
    (handleCheckout items auth pathname resp).networkCalls.length = 1 ∧
    (handleCheckout items auth pathname resp).itemsAfter = items := by
  cases htok : jsTruthy auth.token with
  | none => exact absurd htok h2
  | some t =>
    have hrun : handleCheckout items auth pathname resp =
        { networkCalls := [checkoutPayload items], itemsAfter := items,
          authAfter := auth, clearCount := 0, navigations := [],
          toasts := [{ message := rateLimitMsg, severity := "warning" }],
          outcome :=
            PurchaseOutcome.rateLimited
              (resp.body.bind fun b => b.retryAfter) } := by
      simp [handleCheckout, h1, htok, request, httpOk, h3, classify]
    refine ⟨by rw [hrun], ?_, by rw [hrun], by rw [hrun]; rfl, by rw [hrun]⟩
    intro m
    rw [hrun]
    simp

theorem itemsAfter_eq_of_ne_success (items : CartItems) (auth : AuthState)
    (pathname : String) (resp : HttpResponse)
    (hno : ∀ o, (handleCheckout items auth pathname resp).outcome ≠
      PurchaseOutcome.success o) :
    (handleCheckout items auth pathname resp).itemsAfter = items := by
  by_cases h0 : items.length = 0
  · simp [handleCheckout, h0]
  · cases htok : jsTruthy auth.token with
    | none => simp [handleCheckout, h0, htok]
    | some t =>
      cases hres : (request auth resp).2 with
      | ok data =>
        exfalso
        apply hno (data.bind fun b => b.order)
        simp [handleCheckout, h0, htok, hres, classify]
      | err st msg d =>
        by_cases h429 : st = 429
        · simp [handleCheckout, h0, htok, hres, h429]
        · simp [handleCheckout, h0, htok, hres, h429]

/-- C3: when the purchase request's response status is 2xx, the outcome is
success carrying the order extracted from the body, the cart-clear side
effect fires exactly once, and the caller navigates to the order-history
view `/orders`; and on every run whose outcome is not success, the cart is
left untouched. -/
theorem claim_C3_2xx_success (items : CartItems) (auth : AuthState)
    (pathname : String) (resp : HttpResponse)
    (h1 : items.length ≠ 0) (h2 : jsTruthy auth.token ≠ none)
    (h3 : 200 ≤ resp.status ∧ resp.status ≤ 299) :
    (handleCheckout items auth pathname resp).outcome =
      PurchaseOutcome.success (resp.body.bind fun b => b.order) ∧
    (handleCheckout items auth pathname resp).clearCount = 1 ∧
    (handleCheckout items auth pathname resp).itemsAfter = clearCart ∧
    (handleCheckout items auth pathname resp).navigations = ["/orders"] ∧
    (∀ (items' : CartItems) (auth' : AuthState) (pathname' : String)
        (resp' : HttpResponse),
      (∀ o, (handleCheckout items' auth' pathname' resp').outcome ≠
        PurchaseOutcome.success o) →
      (handleCheckout items' auth' pathname' resp').itemsAfter = items') := by
  cases htok : jsTruthy auth.token with
  | none => exact absurd htok h2
  | some t =>
    have hok : httpOk resp.status = true := by
      unfold httpOk
      simp only [decide_eq_true_eq]
      exact h3
    have hrun : handleCheckout items auth pathname resp =
        { networkCalls := [checkoutPayload items], itemsAfter := clearCart,
          authAfter := auth, clearCount := 1, navigations := ["/orders"],
          toasts := [{ message := successToastMsg, severity := "success" }],
          outcome :=
            PurchaseOutcome.success (resp.body.bind fun b => b.order) } := by
      simp [handleCheckout, h1, htok, request, hok, classify]
    exact ⟨by rw [hrun], by rw [hrun], by rw [hrun], by rw [hrun],
      fun items' auth' pathname' resp' hno =>
        itemsAfter_eq_of_ne_success items' auth' pathname' resp' hno⟩

/-- C4: a 401 response makes `request` invalidate the local session (user
and token both cleared) as a side effect and classify the result as
`unauthenticated`; the invalidation is idempotent — a second consecutive
401 leaves the auth state identical to the state after the first. -/
theorem claim_C4_401_invalidates_session (auth : AuthState)
    (resp : HttpResponse) (h : resp.status = 401) :
    classify (request auth resp).2 = PurchaseOutcome.unauthenticated ∧
    (request auth resp).1 = { user := none, token := none } ∧
    (request (request auth resp).1 resp).1 = (request auth resp).1 := by
  simp [request, httpOk, h, classify, logout]

/-- C5: on an empty cart, `handleCheckout` returns immediately with no
side effect: no network call, no cart or auth mutation, no navigation, no
toast. -/
theorem claim_C5_empty_cart_no_effect (auth : AuthState) (pathname : String)
    (resp : HttpResponse) :
    (handleCheckout [] auth pathname resp).networkCalls = [] ∧
    (handleCheckout [] auth pathname resp).itemsAfter = [] ∧
    (handleCheckout [] auth pathname resp).authAfter = auth ∧
    (handleCheckout [] auth pathname resp).clearCount = 0 ∧
    (handleCheckout [] auth pathname resp).navigations = [] ∧
    (handleCheckout [] auth pathname resp).toasts = [] := by
  simp [handleCheckout]

/-- C6: on a non-empty cart with no session token, `handleCheckout`
returns `unauthenticated` without issuing a network call and redirects to
the login flow with the original navigation target preserved as the
URL-encoded `next` parameter; cart and auth are untouched. -/
theorem claim_C6_guest_redirects_to_login (items : CartItems)
    (auth : AuthState) (pathname : String) (resp : HttpResponse)
    (h1 : items.length ≠ 0) (h2 : jsTruthy auth.token = none) :
    (handleCheckout items auth pathname resp).networkCalls = [] ∧
    (handleCheckout items auth pathname resp).outcome =
      PurchaseOutcome.unauthenticated ∧
    (handleCheckout items auth pathname resp).navigations =
      ["/login?next=" ++
        encodeURIComponent (if pathname = "" then "/" else pathname)] ∧
    (handleCheckout items auth pathname resp).itemsAfter = items ∧
    (handleCheckout items auth pathname resp).authAfter = auth ∧
    (handleCheckout items auth pathname resp).clearCount = 0 := by
  simp [handleCheckout, h1, h2]

/-- C8: a response whose status is neither 2xx nor 401 nor 429 yields the
`failure` outcome whose message is `data?.error || data?.message ||
res.statusText` — the server's `error` field when truthy, else its
`message` field when truthy, else (the generic fallback) the status text —
and the caller consumes it as a plain toast value (falling back to
"Failed to place order." when the message is empty) with the cart left
untouched; nothing escapes the classification boundary. -/
theorem claim_C8_other_non_2xx_failure (items : CartItems) (auth : AuthState)
    (pathname : String) (resp : HttpResponse)
    (h1 : items.length ≠ 0) (h2 : jsTruthy auth.token ≠ none)
    (h3 : ¬(200 ≤ resp.status ∧ resp.status ≤ 299))
    (h4 : resp.status ≠ 401) (h5 : resp.status ≠ 429) :
    (handleCheckout items auth pathname resp).outcome =
      PurchaseOutcome.failure (errMessage resp.body resp.statusText) ∧
    (∀ b m, resp.body = some b → jsTruthy b.error = some m →
      errMessage resp.body resp.statusText = m) ∧
    (∀ b m, resp.body = some b → jsTruthy b.error = none →
      jsTruthy b.message = some m → errMessage resp.body resp.statusText = m) ∧
    ((resp.body.bind fun b => jsTruthy b.error) = none →
      (resp.body.bind fun b => jsTruthy b.message) = none →
      errMessage resp.body resp.statusText = resp.statusText) ∧
    (handleCheckout items auth pathname resp).toasts =
      [{ message :=
           if errMessage resp.body resp.statusText = "" then genericFailureMsg
           else errMessage resp.body resp.statusText,
         severity := "error" }] ∧
    (handleCheckout items auth pathname resp).itemsAfter = items := by
  have hok : httpOk resp.status = false := by
    unfold httpOk
    simp only [decide_eq_false_iff_not]
    exact h3
  cases htok : jsTruthy auth.token with
  | none => exact absurd htok h2
  | some t =>
    have hrun : handleCheckout items auth pathname resp =
        { networkCalls := [checkoutPayload items], itemsAfter := items,
          authAfter := auth, clearCount := 0, navigations := [],
          toasts :=
            [{ message :=
                 if errMessage resp.body resp.statusText = "" then
                   genericFailureMsg
                 else errMessage resp.body resp.statusText,
               severity := "error" }],
          outcome :=
            PurchaseOutcome.failure (errMessage resp.body resp.statusText) } := by
      simp [handleCheckout, h1, htok, request, hok, h4, h5, classify]
    refine ⟨by rw [hrun], ?_, ?_, ?_, by rw [hrun], by rw [hrun]⟩
    · intro b m hb he
      simp [errMessage, hb, he]
    · intro b m hb he hm
      simp [errMessage, hb, he, hm]
    · cases hb : resp.body with
      | none =>
        intro _ _
        simp [errMessage, jsTruthy]
      | some b =>
        intro he hm
        simp [hb] at he hm
        simp [errMessage, hb, he, hm]

/-- C9: on a non-empty authenticated submission exactly one network
request is issued, and its payload is exactly one line per cart line,
each carrying only the product identifier and quantity of that line
(no client-computed price, title or subtotal fields exist in the
payload). -/
theorem claim_C9_single_minimal_payload (items : CartItems)
    (auth : AuthState) (pathname : String) (resp : HttpResponse)
    (h1 : items.length ≠ 0) (h2 : jsTruthy auth.token ≠ none) :
    (handleCheckout items auth pathname resp).networkCalls =
      [checkoutPayload items] ∧
    (∀ p ∈ checkoutPayload items, ∃ it ∈ items,
      p.productId = it.id ∧ p.quantity = it.qty) := by
  constructor
  · cases htok : jsTruthy auth.token with
    | none => exact absurd htok h2
    | some t =>
      cases hres : (request auth resp).2 with
      | ok data => simp [handleCheckout, h1, htok, hres]
      | err st msg d =>
        by_cases h429 : st = 429
        · simp [handleCheckout, h1, htok, hres, h429]
        · simp [handleCheckout, h1, htok, hres, h429]
  · intro p hp
    simp [checkoutPayload] at hp
    obtain ⟨it, hit, hpe⟩ := hp
    exact ⟨it, hit, by rw [← hpe], by rw [← hpe]⟩

/-- An authenticated session used by the concrete witnesses. -/
def sampleAuth : AuthState := { user := none, token := some "tok-1" }

/-- A logged-out session used by the concrete witnesses. -/
def guestAuth : AuthState := { user := none, token := none }

/-- The mocked 429 body from the spec:
`{error:"Too Many Requests", message:"...", retryAfter:60}`. -/
def resp429 : HttpResponse :=
  { status := 429, statusText := "Too Many Requests",
    body := some { error := some "Too Many Requests",
                   message := some "Only one corn per minute",
                   retryAfter := some 60, order := none } }

/-- The order of the spec's mocked 200 response. -/
def orderO1 : OrderInfo := { id := "o1", total := 599 / 100, status := "completed" }

/-- The mocked 200 response from the spec:
`{order:{id:"o1",total:5.99,status:"completed",items:[]}}`. -/
def resp200 : HttpResponse :=
  { status := 200, statusText := "OK",
    body := some { error := none, message := none, retryAfter := none,
                   order := some orderO1 } }

/-- A mocked 401 response. -/
def resp401 : HttpResponse :=
  { status := 401, statusText := "Unauthorized",
    body := some { error := some "Unauthorized", message := none,
                   retryAfter := none, order := none } }

/-- A mocked 500 response carrying a server `message`. -/
def resp500 : HttpResponse :=
  { status := 500, statusText := "Internal Server Error",
    body := some { error := none, message := some "DB down",
                   retryAfter := none, order := none } }

theorem claim_C2_429_rate_limited_witness :
    (handleCheckout [sampleItem5] sampleAuth "/" resp429).outcome =
      PurchaseOutcome.rateLimited (some 60) ∧
    (handleCheckout [sampleItem5] sampleAuth "/" resp429).networkCalls.length
      = 1 ∧
    (handleCheckout [sampleItem5] sampleAuth "/" resp429).itemsAfter =
      [sampleItem5] := by
  obtain ⟨ho, _, _, hn, hi⟩ :=
    claim_C2_429_rate_limited [sampleItem5] sampleAuth "/" resp429
      (by decide) (by decide) (by rfl)
  exact ⟨ho, hn, hi⟩

theorem claim_C3_2xx_success_witness :
    (handleCheckout [sampleItem5] sampleAuth "/" resp200).outcome =
      PurchaseOutcome.success (some orderO1) ∧
    orderO1.id = "o1" ∧
    (handleCheckout [sampleItem5] sampleAuth "/" resp200).clearCount = 1 ∧
    (handleCheckout [sampleItem5] sampleAuth "/" resp200).navigations =
      ["/orders"] ∧
    (handleCheckout [sampleItem5] sampleAuth "/" resp429).itemsAfter =
      [sampleItem5] := by
  obtain ⟨ho, hc, _, hv, hframe⟩ :=
    claim_C3_2xx_success [sampleItem5] sampleAuth "/" resp200
      (by decide) (by decide) (by decide)
  refine ⟨ho, rfl, hc, hv, ?_⟩
  apply hframe [sampleItem5] sampleAuth "/" resp429
  intro o hc429
  simp [handleCheckout, request, httpOk, classify, resp429, sampleAuth,
    jsTruthy] at hc429

theorem claim_C4_401_invalidates_session_witness :
    classify (request sampleAuth resp401).2 =
      PurchaseOutcome.unauthenticated ∧
    (request sampleAuth resp401).1 = { user := none, token := none } ∧
    (request (request sampleAuth resp401).1 resp401).1 =
      (request sampleAuth resp401).1 :=
  claim_C4_401_invalidates_session sampleAuth resp401 (by rfl)

theorem claim_C6_guest_redirects_to_login_witness :
    (handleCheckout [sampleItem5] guestAuth "/product/sweet-corn"
      resp200).networkCalls = [] ∧
    (handleCheckout [sampleItem5] guestAuth "/product/sweet-corn"
      resp200).outcome = PurchaseOutcome.unauthenticated ∧
    (handleCheckout [sampleItem5] guestAuth "/product/sweet-corn"
      resp200).navigations = ["/login?next=%2Fproduct%2Fsweet-corn"] ∧
    (handleCheckout [sampleItem5] guestAuth "/product/sweet-corn"
      resp200).itemsAfter = [sampleItem5] := by
  obtain ⟨hn, ho, hv, hi, _, _⟩ :=
    claim_C6_guest_redirects_to_login [sampleItem5] guestAuth
      "/product/sweet-corn" resp200 (by decide) (by rfl)
  refine ⟨hn, ho, ?_, hi⟩
  rw [hv]
  decide

theorem claim_C8_other_non_2xx_failure_witness :
    (handleCheckout [sampleItem5] sampleAuth "/" resp500).outcome =
      PurchaseOutcome.failure "DB down" ∧
    (handleCheckout [sampleItem5] sampleAuth "/" resp500).toasts =
      [{ message := "DB down", severity := "error" }] ∧
    (handleCheckout [sampleItem5] sampleAuth "/" resp500).itemsAfter =
      [sampleItem5] := by
  obtain ⟨ho, _, _, _, ht, hi⟩ :=
    claim_C8_other_non_2xx_failure [sampleItem5] sampleAuth "/" resp500
      (by decide) (by decide) (by decide) (by decide) (by decide)
  exact ⟨ho, ht, hi⟩

theorem claim_C9_single_minimal_payload_witness :
    (handleCheckout [sampleItem5] sampleAuth "/" resp200).networkCalls =
      [checkoutPayload [sampleItem5]] ∧
    checkoutPayload [sampleItem5] =
      [{ productId := "corn-1", quantity := 5 }] := by
  obtain ⟨hn, _⟩ :=
    claim_C9_single_minimal_payload [sampleItem5] sampleAuth "/" resp200
      (by decide) (by decide)
  exact ⟨hn, rfl⟩

end BobsCorn
